import Mathlib

/-!
Verification of the `dagster-cloud` fragment consisting of
`dagster_cloud/dagster_insights/metrics_utils.py` (cost uploader) and
`dagster_cloud/execution/cloud_run_launcher/process.py` (process run
launcher), as a shallow embedding.  External effects (HTTP posts, process
spawn, signals, run-tag writes) are recorded in an explicit effect trace;
external collaborators (the instance object, process liveness checks) are
parameters of an environment record.
-/

namespace DagsterCloud

/-- Liveness classification of an OS process, from
`dagster_cloud.execution.utils.TaskStatus`: the launcher only compares
against `RUNNING`. -/
inductive TaskStatus
  | RUNNING
  | NOT_RUNNING
deriving DecidableEq, Repr

/-- Observable side effects of the two components. -/
inductive Effect
  /-- `session.post(url, headers=..., timeout=..., proxies=...)`: the POST to
  the generate-upload-URL endpoint. -/
  | genUrlPost (url : String)
  /-- `session.post(resp_data["url"], data=resp_data["fields"], files=...)`:
  the multipart file POST to the signed destination. -/
  | filePost (url : String) (fields : List (String × String))
  /-- `launch_process(args)`: one OS process spawn. -/
  | spawn (args : List String)
  /-- `kill_process(pid)`: the termination signal. -/
  | killSignal (pid : Int)
  /-- `self._instance.report_run_canceling(run)`: the cancellation
  notification to the external run-state machine. -/
  | reportCanceling (run_id : String)
  /-- `self._instance.add_run_tags(run_id, tags)`: a run-tag write. -/
  | addRunTags (run_id : String) (tags : List (String × String))
deriving DecidableEq, Repr

/-! ## Cost uploader (`metrics_utils.py`) -/

/-- The four named columns of the parquet table built by
`upload_cost_information`:
`pa.Table.from_arrays([opaque_ids, costs, metric_names, query_ids],
["opaque_id", "cost", "metric_name", "query_id"])`.
The cost column carries values of an arbitrary type `C` (Python floats are
passed through opaquely, no arithmetic is performed on them). -/
structure CostTable (C : Type) where
  opaque_id : List String
  cost : List C
  metric_name : List String
  query_id : List String
deriving Repr

/-- The columnar table construction of `upload_cost_information`
(lines 79-91): four parallel columns built by comprehensions over
`cost_information`, the metric name repeated once per record. -/
def buildCostTable (C : Type) (metric_name : String)
    (cost_information : List (String × C × String)) : CostTable C :=
  { opaque_id := cost_information.map (fun r => r.1)
  , cost := cost_information.map (fun r => r.2.1)
  , metric_name := cost_information.map (fun _ => metric_name)
  , query_id := cost_information.map (fun r => r.2.2) }

/-- Errors the uploader can raise. -/
inductive UploadError
  /-- `RuntimeError`: raised by `get_post_request_params` for a non
  cloud-agent instance (configuration error). -/
  | runtimeError (msg : String)
  /-- Raised by `raise_http_error` on a non-success HTTP status. -/
  | httpError (status : Nat)
  /-- `AssertionError`: the `assert "url" in resp_data and "fields" in
  resp_data` on the parsed response body. -/
  | assertionError
  /-- `ImportError`: `import pyarrow` fails when the optional dependency is
  missing. -/
  | importError (msg : String)
  /-- The generic `Exception` raised by `put_cost_information` with the
  user-facing install message. -/
  | userError (msg : String)
deriving DecidableEq, Repr

/-- The parsed JSON body of the generate-upload-URL response, restricted to
the two keys the code reads: `url?`/`fields?` are `some` exactly when the
corresponding key is present. -/
structure RespData where
  url? : Option String
  fields? : Option (List (String × String))
deriving DecidableEq, Repr

/-- The HTTP response of the first POST: a status code and a parsed body. -/
structure HttpResponse where
  status_code : Nat
  data : RespData
deriving DecidableEq, Repr

/-- Environment of one uploader execution: the instance variant, whether
`import pyarrow` succeeds, the instance-provided request parameters, the
response of the generate-upload-URL POST, and the status of the second
(file) POST, whose value the code never inspects. -/
structure UploadEnv where
  isCloudAgent : Bool
  pyarrowAvailable : Bool
  genInsightsUrl : String
  apiHeaders : List (String × String)
  apiTimeout : Nat
  genUrlResponse : HttpResponse
  filePostStatus : Nat
deriving DecidableEq, Repr

/-- Modelled from the spec: `raise_http_error` lives in
`dagster_cloud_cli.core.errors`, which is not under `src/`.  Per the spec's
failure policy, it fails signaling an HTTP error (with response-derived
detail) exactly when the response status is not a success (non-2xx) status,
and does nothing otherwise. -/
def raise_http_error (resp : HttpResponse) : Except UploadError Unit :=
  if 200 ≤ resp.status_code ∧ resp.status_code < 300 then Except.ok ()
  else Except.error (UploadError.httpError resp.status_code)

/-- `get_post_request_params` (lines 55-67): raises `RuntimeError` unless the
instance is a `DagsterCloudAgentInstance`; otherwise returns the session,
URL, headers, timeout and proxies drawn from the instance.  Only the URL is
consulted downstream by our claims, so the result is the URL. -/
def get_post_request_params (env : UploadEnv) : Except UploadError String :=
  if env.isCloudAgent then Except.ok env.genInsightsUrl
  else Except.error (UploadError.runtimeError
    "This asset only functions in a running Dagster Cloud instance")

/-- `upload_cost_information` (lines 70-107): import pyarrow, build the
columnar table and write it to a scoped temporary file, obtain the request
parameters (instance-variant check), POST to the generate-upload-URL
endpoint, check the status with `raise_http_error`, assert the `url` and
`fields` keys are present in the parsed body, then POST the file to the
signed destination; the second response is discarded.  Returns the result
paired with the trace of network effects. -/
def upload_cost_information (C : Type) (env : UploadEnv) (metric_name : String)
    (cost_information : List (String × C × String)) :
    Except UploadError Unit × List Effect :=
  if env.pyarrowAvailable then
    let _table := buildCostTable C metric_name cost_information
    match get_post_request_params env with
    | Except.error e => (Except.error e, [])
    | Except.ok url =>
      let resp := env.genUrlResponse
      match raise_http_error resp with
      | Except.error e => (Except.error e, [Effect.genUrlPost url])
      | Except.ok _ =>
        match resp.data.url?, resp.data.fields? with
        | some u, some flds =>
          (Except.ok (), [Effect.genUrlPost url, Effect.filePost u flds])
        | some _, none => (Except.error UploadError.assertionError, [Effect.genUrlPost url])
        | none, _ => (Except.error UploadError.assertionError, [Effect.genUrlPost url])
  else
    (Except.error (UploadError.importError "No module named pyarrow"), [])

/-- The user-facing message of the `Exception` raised by
`put_cost_information` when the optional dependency import fails. -/
def insightsInstallMsg : String :=
  "Dagster insights dependencies not installed. Install dagster-cloud[insights] to use this feature."

/-- `put_cost_information` (lines 110-123): call `upload_cost_information`;
an `ImportError` is re-raised as a generic `Exception` with the user-facing
install message; everything else (success or error) propagates unchanged.
The `start` and `end` parameters of the source are unused by its body and
are omitted here. -/
def put_cost_information (C : Type) (env : UploadEnv) (metric_name : String)
    (cost_information : List (String × C × String)) :
    Except UploadError Unit × List Effect :=
  let r := upload_cost_information C env metric_name cost_information
  match r.1 with
  | Except.error (UploadError.importError _) =>
    (Except.error (UploadError.userError insightsInstallMsg), r.2)
  | _ => r

/-! ## Process run launcher (`process.py`) -/

/-- The run record as the launcher sees it: an id, the finished flag, and
the tag dictionary (an association list keyed by tag name). -/
structure Run where
  run_id : String
  is_finished : Bool
  tags : List (String × String)
deriving DecidableEq, Repr

/-- `PID_TAG = "process/pid"`. -/
def PID_TAG : String := "process/pid"

/-- Python dictionary membership/lookup on the tag association list: the
value at the first binding of `k`, when any. -/
def lookupTag (tags : List (String × String)) (k : String) : Option String :=
  (tags.find? (fun p => p.1 = k)).map (fun p => p.2)

/-- The code points CPython's `int()` strips as whitespace
(`Py_UNICODE_ISSPACE`): the ASCII controls 09-0D, the file/group/record/unit
separators 1C-1F, space, next line 85, no-break space A0, Ogham space mark,
the Zs range 2000-200A, line and paragraph separators 2028/2029, narrow
no-break space 202F, medium mathematical space 205F, and ideographic space
3000. -/
def pySpaceCodes : List Nat :=
  [0x09, 0x0A, 0x0B, 0x0C, 0x0D, 0x1C, 0x1D, 0x1E, 0x1F, 0x20, 0x85, 0xA0,
   0x1680, 0x2000, 0x2001, 0x2002, 0x2003, 0x2004, 0x2005, 0x2006, 0x2007,
   0x2008, 0x2009, 0x200A, 0x2028, 0x2029, 0x202F, 0x205F, 0x3000]

/-- Whether `int()` strips the character as whitespace. -/
def pyIsSpace (c : Char) : Bool := pySpaceCodes.contains c.toNat

/-- First code points of the runs of ten consecutive Unicode decimal digits
(general category Nd, Unicode 15.0), each run carrying the digit values 0-9
in order; `int()` accepts exactly these as digits.  ASCII `0-9` is the first
run. -/
def pyDigitRangeStarts : List Nat :=
  [0x30, 0x660, 0x6F0, 0x7C0, 0x966, 0x9E6, 0xA66, 0xAE6, 0xB66, 0xBE6,
   0xC66, 0xCE6, 0xD66, 0xDE6, 0xE50, 0xED0, 0xF20, 0x1040, 0x1090, 0x17E0,
   0x1810, 0x1946, 0x19D0, 0x1A80, 0x1A90, 0x1B50, 0x1BB0, 0x1C40, 0x1C50,
   0xA620, 0xA8D0, 0xA900, 0xA9D0, 0xA9F0, 0xAA50, 0xABF0, 0xFF10,
   0x104A0, 0x10D30, 0x11066, 0x110F0, 0x11136, 0x111D0, 0x112F0, 0x11450,
   0x114D0, 0x11650, 0x116C0, 0x11730, 0x118E0, 0x11950, 0x11C50, 0x11D50,
   0x11DA0, 0x11F50, 0x16A60, 0x16AC0, 0x16B50,
   0x1D7CE, 0x1D7D8, 0x1D7E2, 0x1D7EC, 0x1D7F6,
   0x1E140, 0x1E2F0, 0x1E4F0, 0x1E950, 0x1FBF0]

/-- The decimal value of a Unicode decimal digit (Nd), `none` otherwise. -/
def pyDigitVal? (c : Char) : Option Nat :=
  (pyDigitRangeStarts.find? (fun s => s ≤ c.toNat ∧ c.toNat < s + 10)).map
    (fun s => c.toNat - s)

/-- Continue parsing `digit (underscore? digit)*` after at least one digit
has been read into `acc`: a single underscore may sit between two digits
(PEP 515); a trailing or doubled underscore, or any non-digit, fails. -/
def pyDigitsRest? (acc : Nat) (cs : List Char) : Option Nat :=
  match cs with
  | [] => some acc
  | '_' :: c :: rest =>
    match pyDigitVal? c with
    | some d => pyDigitsRest? (acc * 10 + d) rest
    | none => none
  | c :: rest =>
    match pyDigitVal? c with
    | some d => pyDigitsRest? (acc * 10 + d) rest
    | none => none

/-- The digit part of `int()`'s grammar: one or more Unicode decimal digits
with single underscores allowed between digits; a leading underscore or an
empty list fails. -/
def pyDigits? (cs : List Char) : Option Nat :=
  match cs with
  | [] => none
  | '_' :: _ => none
  | c :: rest =>
    match pyDigitVal? c with
    | some d => pyDigitsRest? d rest
    | none => none

/-- Python's built-in `int()` applied to a string: surrounding whitespace
(per CPython's space table) is stripped, then an optional sign followed by
one or more Unicode decimal digits with single underscores permitted
between digits (PEP 515); anything else raises `ValueError` (here
`none`). -/
def pyInt? (s : String) : Option Int :=
  let cs := ((s.toList.dropWhile pyIsSpace).reverse.dropWhile
    pyIsSpace).reverse
  match cs with
  | '-' :: rest => (pyDigits? rest).map (fun n => -(n : Int))
  | '+' :: rest => (pyDigits? rest).map (fun n => (n : Int))
  | _ => (pyDigits? cs).map (fun n => (n : Int))

/-- Errors the launcher can raise. -/
inductive LaunchError
  /-- `check.not_none(context.pipeline_code_origin)` fails: precondition
  violation. -/
  | checkError (msg : String)
  /-- `ValueError`: `int(tags[PID_TAG])` on a non-integer tag value. -/
  | valueError (value : String)
deriving DecidableEq, Repr

/-- Environment of the launcher: the external instance's run lookup, the
liveness check `check_on_process`, the pid returned by `launch_process`, the
serialized instance reference, the command-argument builder of
`ExecuteRunArgs.get_command_args` (origin, run id, instance ref), and the
instance variant — which, notably, no launcher operation consults. -/
structure LauncherEnv where
  get_run_by_id : String → Option Run
  check_on_process : Int → TaskStatus
  launch_pid : List String → Int
  instance_ref : String
  command_args : String → String → String → List String
  isCloudAgent : Bool

/-- The launch context: the run and the optional code-location origin
(modelled opaquely as a string). -/
structure LaunchRunContext where
  pipeline_run : Run
  pipeline_code_origin : Option String

namespace CloudProcessRunLauncher

/-- `CloudProcessRunLauncher._get_pid` (lines 27-36): `None` when the run is
absent or finished or carries no `process/pid` tag; otherwise
`int(tags[PID_TAG])`, which raises `ValueError` on a non-integer value. -/
def get_pid (run? : Option Run) : Except LaunchError (Option Int) :=
  match run? with
  | none => Except.ok none
  | some run =>
    if run.is_finished then Except.ok none
    else
      match lookupTag run.tags PID_TAG with
      | none => Except.ok none
      | some v =>
        match pyInt? v with
        | some n => Except.ok (some n)
        | none => Except.error (LaunchError.valueError v)

/-- Python truthiness of the pid returned by `_get_pid`: `if not pid` is
taken for `None` and for `0`. -/
def pidFalsy (pid? : Option Int) : Bool :=
  match pid? with
  | none => true
  | some n => n == 0

/-- `CloudProcessRunLauncher.can_terminate` (lines 38-47): false for an
unknown run or a falsy pid; otherwise compares `check_on_process(pid)` with
`RUNNING`. -/
def can_terminate (env : LauncherEnv) (run_id : String) :
    Except LaunchError Bool :=
  match env.get_run_by_id run_id with
  | none => Except.ok false
  | some run =>
    match get_pid (some run) with
    | Except.error e => Except.error e
    | Except.ok pid? =>
      if pidFalsy pid? then Except.ok false
      else Except.ok (env.check_on_process (pid?.getD 0) == TaskStatus.RUNNING)

/-- `CloudProcessRunLauncher.terminate` (lines 49-62): same checks as
`can_terminate` up to the pid; then reports cancellation, signals the pid,
and returns true.  The liveness of the pid is never checked here. -/
def terminate (env : LauncherEnv) (run_id : String) :
    Except LaunchError Bool × List Effect :=
  match env.get_run_by_id run_id with
  | none => (Except.ok false, [])
  | some run =>
    match get_pid (some run) with
    | Except.error e => (Except.error e, [])
    | Except.ok pid? =>
      if pidFalsy pid? then (Except.ok false, [])
      else
        (Except.ok true,
         [Effect.reportCanceling run.run_id, Effect.killSignal (pid?.getD 0)])

/-- `CloudProcessRunLauncher.launch_run` (lines 12-25): requires the
code-location origin (`check.not_none`); builds the command arguments,
spawns the process, and writes the `process/pid` tag with the stringified
pid. -/
def launch_run (env : LauncherEnv) (ctx : LaunchRunContext) :
    Except LaunchError Unit × List Effect :=
  match ctx.pipeline_code_origin with
  | none =>
    (Except.error (LaunchError.checkError "pipeline_code_origin must not be None"),
     [])
  | some origin =>
    let args := env.command_args origin ctx.pipeline_run.run_id env.instance_ref
    let pid := env.launch_pid args
    (Except.ok (),
     [Effect.spawn args,
      Effect.addRunTags ctx.pipeline_run.run_id [(PID_TAG, toString pid)]])

end CloudProcessRunLauncher

/-! ## Concrete fixtures used by witnesses and counterexamples -/

/-- A run carrying a `process/pid` tag with value `"7"`. -/
def runSeven : Run :=
  { run_id := "r", is_finished := false, tags := [("process/pid", "7")] }

/-- A run carrying a `process/pid` tag with value `"0"`. -/
def runZero : Run :=
  { run_id := "r", is_finished := false, tags := [("process/pid", "0")] }

/-- A run whose `process/pid` tag holds a non-integer value. -/
def runBadTag : Run :=
  { run_id := "r", is_finished := false, tags := [("process/pid", "abc")] }

/-- A launcher environment exposing `runSeven` under id `"r"`, every pid
reported `RUNNING`, and a non cloud-agent instance variant. -/
def envSeven : LauncherEnv :=
  { get_run_by_id := fun rid => if rid = "r" then some runSeven else none
  , check_on_process := fun _ => TaskStatus.RUNNING
  , launch_pid := fun _ => 42
  , instance_ref := "ref"
  , command_args := fun o r i => [o, r, i]
  , isCloudAgent := false }

/-- Like `envSeven` but exposing `runZero`: pid `0`, reported `RUNNING`. -/
def envZero : LauncherEnv :=
  { envSeven with get_run_by_id := fun rid => if rid = "r" then some runZero else none }

/-- Like `envSeven` but exposing `runBadTag`. -/
def envBadTag : LauncherEnv :=
  { envSeven with get_run_by_id := fun rid => if rid = "r" then some runBadTag else none }

/-- An upload environment on the happy path: cloud-agent instance, pyarrow
importable, a success response carrying both keys, and a failing (status
500) second POST. -/
def uenvOk : UploadEnv :=
  { isCloudAgent := true, pyarrowAvailable := true
  , genInsightsUrl := "https://gen.example/url"
  , apiHeaders := [("Dagster-Cloud-Api-Token", "t")], apiTimeout := 3
  , genUrlResponse :=
    { status_code := 200
    , data := { url? := some "https://bucket.example/signed"
              , fields? := some [("key", "cost.parquet")] } }
  , filePostStatus := 500 }

/-- Like `uenvOk` but with a 500 response on the generate-upload-URL POST. -/
def uenvHttp500 : UploadEnv :=
  { uenvOk with genUrlResponse :=
    { status_code := 500, data := { url? := none, fields? := none } } }

/-- Like `uenvOk` but with a success response lacking the `url` key. -/
def uenvNoUrl : UploadEnv :=
  { uenvOk with genUrlResponse :=
    { status_code := 200, data := { url? := none, fields? := some [] } } }

/-- Like `uenvOk` but with the optional dependency missing. -/
def uenvNoPyarrow : UploadEnv :=
  { uenvOk with pyarrowAvailable := false }

/-- Like `uenvOk` but on a non cloud-agent instance. -/
def uenvNotAgent : UploadEnv :=
  { uenvOk with isCloudAgent := false }

/-! ## Claims -/

/-- C1: for every list of CostRecords (including the empty list) and every
metric name, the columnar table has exactly one row per record; the
`opaque_id`, `cost` and `query_id` columns equal the corresponding record
fields in order; the `metric_name` column holds the supplied metric name on
every row; and the empty record list yields a table with zero rows in every
column. -/
theorem C1_cost_table_rows (C : Type) (metric_name : String)
    (records : List (String × C × String)) (i : Nat) :
    (buildCostTable C metric_name records).opaque_id.length = records.length ∧
    (buildCostTable C metric_name records).cost.length = records.length ∧
    (buildCostTable C metric_name records).metric_name.length = records.length ∧
    (buildCostTable C metric_name records).query_id.length = records.length ∧
    (buildCostTable C metric_name records).opaque_id[i]? =
      records[i]?.map (fun r => r.1) ∧
    (buildCostTable C metric_name records).cost[i]? =
      records[i]?.map (fun r => r.2.1) ∧
    (buildCostTable C metric_name records).query_id[i]? =
      records[i]?.map (fun r => r.2.2) ∧
    (buildCostTable C metric_name records).metric_name[i]? =
      records[i]?.map (fun _ => metric_name) ∧
    (buildCostTable C metric_name []).opaque_id = [] ∧
    (buildCostTable C metric_name []).cost = [] ∧
    (buildCostTable C metric_name []).metric_name = [] ∧
    (buildCostTable C metric_name []).query_id = [] := by
  refine ⟨?_, ?_, ?_, ?_, ?_, ?_, ?_, ?_, rfl, rfl, rfl, rfl⟩ <;>
    simp only [buildCostTable, List.getElem?_map, List.length_map]

/-- C2, counterexample: on an environment whose instance is not of the
cloud-agent variant, `terminate` does not fail with a configuration error —
it returns true and sends a termination signal (a process call), and
`launch_run` spawns a process and writes the pid tag.  The launcher performs
no instance-variant check. -/
theorem C2_counterexample :
    envSeven.isCloudAgent = false ∧
    CloudProcessRunLauncher.terminate envSeven "r" =
      (Except.ok true, [Effect.reportCanceling "r", Effect.killSignal 7]) ∧
    CloudProcessRunLauncher.launch_run envSeven
        { pipeline_run := runSeven, pipeline_code_origin := some "origin" } =
      (Except.ok (),
       [Effect.spawn ["origin", "r", "ref"],
        Effect.addRunTags "r" [(PID_TAG, "42")]]) :=
  ⟨rfl, rfl, rfl⟩

/-- C2, amended: for every instance that is not of the cloud-agent variant,
the cost uploader (when the optional dependency imports succeed) fails with
the configuration error and performs no network calls; the launcher's launch
and terminate operations perform no instance-variant check at all — their
results and effects are identical whatever the variant flag. -/
theorem C2_amended (env : UploadEnv) (C : Type) (m : String)
    (records : List (String × C × String)) (lenv : LauncherEnv) (b : Bool)
    (rid : String) (ctx : LaunchRunContext)
    (h1 : env.isCloudAgent = false) (h2 : env.pyarrowAvailable = true) :
    upload_cost_information C env m records =
      (Except.error (UploadError.runtimeError
        "This asset only functions in a running Dagster Cloud instance"), []) ∧
    CloudProcessRunLauncher.terminate { lenv with isCloudAgent := b } rid =
      CloudProcessRunLauncher.terminate lenv rid ∧
    CloudProcessRunLauncher.launch_run { lenv with isCloudAgent := b } ctx =
      CloudProcessRunLauncher.launch_run lenv ctx := by
  refine ⟨?_, rfl, rfl⟩
  simp [upload_cost_information, get_post_request_params, h1, h2]

/-- C2, witness for the amended theorem at concrete inputs. -/
theorem C2_amended_witness :
    upload_cost_information Int uenvNotAgent "credits" [("a", 1, "q")] =
      (Except.error (UploadError.runtimeError
        "This asset only functions in a running Dagster Cloud instance"), []) ∧
    CloudProcessRunLauncher.terminate { envSeven with isCloudAgent := true } "r" =
      CloudProcessRunLauncher.terminate envSeven "r" ∧
    CloudProcessRunLauncher.launch_run { envSeven with isCloudAgent := true }
        { pipeline_run := runSeven, pipeline_code_origin := some "origin" } =
      CloudProcessRunLauncher.launch_run envSeven
        { pipeline_run := runSeven, pipeline_code_origin := some "origin" } :=
  C2_amended uenvNotAgent Int "credits" [("a", 1, "q")] envSeven true "r"
    { pipeline_run := runSeven, pipeline_code_origin := some "origin" } rfl rfl

/-- C3, counterexample: a run that exists, is not finished, and carries a
`process/pid` tag whose pid (`0`) the liveness check reports `RUNNING`, yet
`can_terminate` returns false — the code's `if not pid` treats pid `0` like
a missing tag, so the claimed "true iff RUNNING" fails at pid `0`. -/
theorem C3_counterexample :
    envZero.get_run_by_id "r" = some runZero ∧
    runZero.is_finished = false ∧
    lookupTag runZero.tags PID_TAG = some "0" ∧
    pyInt? "0" = some 0 ∧
    envZero.check_on_process 0 = TaskStatus.RUNNING ∧
    CloudProcessRunLauncher.can_terminate envZero "r" = Except.ok false :=
  ⟨rfl, rfl, rfl, rfl, rfl, rfl⟩

/-- C3, amended: `can_terminate` returns false when the run does not exist,
when it is finished, when it has no `process/pid` tag, or when the tagged
pid is `0`; otherwise (the tag parses to a nonzero pid) it returns true if
and only if the liveness check on that pid reports `RUNNING`. -/
theorem C3_amended (env : LauncherEnv) (rid : String) :
    (env.get_run_by_id rid = none →
      CloudProcessRunLauncher.can_terminate env rid = Except.ok false) ∧
    (∀ run, env.get_run_by_id rid = some run → run.is_finished = true →
      CloudProcessRunLauncher.can_terminate env rid = Except.ok false) ∧
    (∀ run, env.get_run_by_id rid = some run → run.is_finished = false →
      lookupTag run.tags PID_TAG = none →
      CloudProcessRunLauncher.can_terminate env rid = Except.ok false) ∧
    (∀ run v, env.get_run_by_id rid = some run → run.is_finished = false →
      lookupTag run.tags PID_TAG = some v → pyInt? v = some 0 →
      CloudProcessRunLauncher.can_terminate env rid = Except.ok false) ∧
    (∀ run v pid, env.get_run_by_id rid = some run → run.is_finished = false →
      lookupTag run.tags PID_TAG = some v → pyInt? v = some pid → pid ≠ 0 →
      CloudProcessRunLauncher.can_terminate env rid =
        Except.ok (env.check_on_process pid == TaskStatus.RUNNING)) := by
  unfold CloudProcessRunLauncher.can_terminate CloudProcessRunLauncher.get_pid
  refine ⟨?_, ?_, ?_, ?_, ?_⟩
  · intro h; simp [h]
  · intro run h hf; simp [h, hf, CloudProcessRunLauncher.pidFalsy]
  · intro run h hf ht; simp [h, hf, ht, CloudProcessRunLauncher.pidFalsy]
  · intro run v h hf ht hp
    simp [h, hf, ht, hp, CloudProcessRunLauncher.pidFalsy]
  · intro run v pid h hf ht hp hnz
    simp [h, hf, ht, hp, CloudProcessRunLauncher.pidFalsy, hnz]

/-- C3, witness: on `envSeven` the tag parses to the nonzero pid `7` and
`can_terminate` returns the `RUNNING` comparison, here true. -/
theorem C3_amended_witness :
    CloudProcessRunLauncher.can_terminate envSeven "r" = Except.ok true :=
  (C3_amended envSeven "r").2.2.2.2 runSeven "7" 7 rfl rfl rfl rfl (by decide)

/-- C4, counterexample: a run that exists, is not finished, and carries a
`process/pid` tag for a pid (`0`) whose liveness check reports `RUNNING`,
yet `terminate` returns false with no cancellation notification and no
signal — `if not pid` treats pid `0` like a missing tag. -/
theorem C4_counterexample :
    envZero.get_run_by_id "r" = some runZero ∧
    runZero.is_finished = false ∧
    lookupTag runZero.tags PID_TAG = some "0" ∧
    pyInt? "0" = some 0 ∧
    envZero.check_on_process 0 = TaskStatus.RUNNING ∧
    CloudProcessRunLauncher.terminate envZero "r" = (Except.ok false, []) :=
  ⟨rfl, rfl, rfl, rfl, rfl, rfl⟩

/-- C4, amended: for every run that exists, is not finished, and carries a
`process/pid` tag parsing to a nonzero `RUNNING` pid, `terminate` invokes
the cancellation notification exactly once, then sends the termination
signal to that pid, and returns true; it returns false (with no
notification and no signal) when the existence/finished/tag preconditions
fail or when the tagged pid is `0`. -/
theorem C4_amended (env : LauncherEnv) (rid : String) :
    (env.get_run_by_id rid = none →
      CloudProcessRunLauncher.terminate env rid = (Except.ok false, [])) ∧
    (∀ run, env.get_run_by_id rid = some run → run.is_finished = true →
      CloudProcessRunLauncher.terminate env rid = (Except.ok false, [])) ∧
    (∀ run, env.get_run_by_id rid = some run → run.is_finished = false →
      lookupTag run.tags PID_TAG = none →
      CloudProcessRunLauncher.terminate env rid = (Except.ok false, [])) ∧
    (∀ run v, env.get_run_by_id rid = some run → run.is_finished = false →
      lookupTag run.tags PID_TAG = some v → pyInt? v = some 0 →
      CloudProcessRunLauncher.terminate env rid = (Except.ok false, [])) ∧
    (∀ run v pid, env.get_run_by_id rid = some run → run.is_finished = false →
      lookupTag run.tags PID_TAG = some v → pyInt? v = some pid → pid ≠ 0 →
      env.check_on_process pid = TaskStatus.RUNNING →
      CloudProcessRunLauncher.terminate env rid =
        (Except.ok true,
         [Effect.reportCanceling run.run_id, Effect.killSignal pid])) := by
  unfold CloudProcessRunLauncher.terminate CloudProcessRunLauncher.get_pid
  refine ⟨?_, ?_, ?_, ?_, ?_⟩
  · intro h; simp [h]
  · intro run h hf; simp [h, hf, CloudProcessRunLauncher.pidFalsy]
  · intro run h hf ht; simp [h, hf, ht, CloudProcessRunLauncher.pidFalsy]
  · intro run v h hf ht hp
    simp [h, hf, ht, hp, CloudProcessRunLauncher.pidFalsy]
  · intro run v pid h hf ht hp hnz _
    simp [h, hf, ht, hp, CloudProcessRunLauncher.pidFalsy, hnz]

/-- C4, witness: on `envSeven` the pid `7` is nonzero and `RUNNING`, and
`terminate` notifies once, signals pid `7`, and returns true. -/
theorem C4_amended_witness :
    CloudProcessRunLauncher.terminate envSeven "r" =
      (Except.ok true, [Effect.reportCanceling "r", Effect.killSignal 7]) :=
  (C4_amended envSeven "r").2.2.2.2 runSeven "7" 7 rfl rfl rfl rfl
    (by decide) rfl

/-- C5: whenever the generate-upload-URL request returns a non-success
status, the uploader fails with an HTTP error carrying the response status
and the multipart file POST to the signed destination never happens. -/
theorem C5_http_error_skips_file_post (env : UploadEnv) (C : Type) (m : String)
    (records : List (String × C × String))
    (h1 : env.isCloudAgent = true) (h2 : env.pyarrowAvailable = true)
    (h3 : ¬(200 ≤ env.genUrlResponse.status_code ∧
      env.genUrlResponse.status_code < 300)) :
    upload_cost_information C env m records =
      (Except.error (UploadError.httpError env.genUrlResponse.status_code),
       [Effect.genUrlPost env.genInsightsUrl]) ∧
    ∀ u f, Effect.filePost u f ∉ (upload_cost_information C env m records).2 := by
  have hmain : upload_cost_information C env m records =
      (Except.error (UploadError.httpError env.genUrlResponse.status_code),
       [Effect.genUrlPost env.genInsightsUrl]) := by
    simp [upload_cost_information, get_post_request_params, raise_http_error,
      h1, h2, h3]
  exact ⟨hmain, by simp [hmain]⟩

/-- C5, witness: a 500 status on the first POST yields the HTTP error and
only the generate-upload-URL network effect. -/
theorem C5_http_error_skips_file_post_witness :
    upload_cost_information Int uenvHttp500 "credits" [("a", 1, "q")] =
      (Except.error (UploadError.httpError 500),
       [Effect.genUrlPost "https://gen.example/url"]) :=
  (C5_http_error_skips_file_post uenvHttp500 Int "credits" [("a", 1, "q")]
    rfl rfl (by decide)).1

/-- C6: when the inner upload raises the missing-optional-dependency error,
the outer entry point raises the user-facing "install the optional feature
extra" error instead; every other error, and success, propagates to the
caller unchanged. -/
theorem C6_import_error_translated (env : UploadEnv) (C : Type) (m : String)
    (records : List (String × C × String)) :
    ((∃ msg, (upload_cost_information C env m records).1 =
        Except.error (UploadError.importError msg)) →
      (put_cost_information C env m records).1 =
        Except.error (UploadError.userError insightsInstallMsg)) ∧
    (∀ e, (upload_cost_information C env m records).1 = Except.error e →
      (∀ msg, e ≠ UploadError.importError msg) →
      (put_cost_information C env m records).1 = Except.error e) ∧
    (∀ u, (upload_cost_information C env m records).1 = Except.ok u →
      (put_cost_information C env m records).1 = Except.ok u) := by
  refine ⟨?_, ?_, ?_⟩
  · rintro ⟨msg, hm⟩
    simp [put_cost_information, hm]
  · intro e he hne
    cases e with
    | runtimeError msg => simp [put_cost_information, he]
    | httpError s => simp [put_cost_information, he]
    | assertionError => simp [put_cost_information, he]
    | importError msg => exact absurd rfl (hne msg)
    | userError msg => simp [put_cost_information, he]
  · intro u hu
    simp [put_cost_information, hu]

/-- C6, witness: with pyarrow missing, the outer call surfaces the install
message; on the happy path the inner success propagates. -/
theorem C6_import_error_translated_witness :
    (put_cost_information Int uenvNoPyarrow "credits" []).1 =
      Except.error (UploadError.userError insightsInstallMsg) ∧
    (put_cost_information Int uenvOk "credits" []).1 = Except.ok () :=
  ⟨(C6_import_error_translated uenvNoPyarrow Int "credits" []).1
    ⟨"No module named pyarrow", rfl⟩,
   (C6_import_error_translated uenvOk Int "credits" []).2.2 () rfl⟩

/-- C7: when the generate-upload-URL response has a success status but its
parsed body lacks the `url` key or the `fields` key, the uploader fails with
the assertion (malformed-response) error — which is not an HTTP-status
error — and the file POST never happens. -/
theorem C7_malformed_response (env : UploadEnv) (C : Type) (m : String)
    (records : List (String × C × String))
    (h1 : env.isCloudAgent = true) (h2 : env.pyarrowAvailable = true)
    (h3 : 200 ≤ env.genUrlResponse.status_code)
    (h4 : env.genUrlResponse.status_code < 300)
    (h5 : env.genUrlResponse.data.url? = none ∨
      env.genUrlResponse.data.fields? = none) :
    upload_cost_information C env m records =
      (Except.error UploadError.assertionError,
       [Effect.genUrlPost env.genInsightsUrl]) ∧
    (∀ s, (upload_cost_information C env m records).1 ≠
      Except.error (UploadError.httpError s)) ∧
    (∀ u f, Effect.filePost u f ∉ (upload_cost_information C env m records).2) := by
  have hmain : upload_cost_information C env m records =
      (Except.error UploadError.assertionError,
       [Effect.genUrlPost env.genInsightsUrl]) := by
    rcases h5 with h5 | h5
    · simp [upload_cost_information, get_post_request_params, raise_http_error,
        h1, h2, h3, h4, h5]
    · cases hu : env.genUrlResponse.data.url? <;>
        simp [upload_cost_information, get_post_request_params, raise_http_error,
          h1, h2, h3, h4, h5, hu]
  refine ⟨hmain, ?_, ?_⟩ <;> simp [hmain]

/-- C7, witness: a 200 response lacking the `url` key yields the assertion
error and no file POST. -/
theorem C7_malformed_response_witness :
    upload_cost_information Int uenvNoUrl "credits" [("a", 1, "q")] =
      (Except.error UploadError.assertionError,
       [Effect.genUrlPost "https://gen.example/url"]) :=
  (C7_malformed_response uenvNoUrl Int "credits" [("a", 1, "q")]
    rfl rfl (by decide) (by decide) (Or.inl rfl)).1

/-- C8: `launch_run` without a code-location origin fails with the
precondition (check) error, spawning nothing and writing no tag; with the
origin present it spawns exactly one process and writes the `process/pid`
tag mapped to the stringified pid on the run. -/
theorem C8_launch_run_spawn_and_tag (env : LauncherEnv) (ctx : LaunchRunContext) :
    PID_TAG = "process/pid" ∧
    (ctx.pipeline_code_origin = none →
      CloudProcessRunLauncher.launch_run env ctx =
        (Except.error
          (LaunchError.checkError "pipeline_code_origin must not be None"), [])) ∧
    (∀ origin, ctx.pipeline_code_origin = some origin →
      CloudProcessRunLauncher.launch_run env ctx =
        (Except.ok (),
         [Effect.spawn
            (env.command_args origin ctx.pipeline_run.run_id env.instance_ref),
          Effect.addRunTags ctx.pipeline_run.run_id
            [(PID_TAG, toString (env.launch_pid
              (env.command_args origin ctx.pipeline_run.run_id
                env.instance_ref)))]])) := by
  refine ⟨rfl, ?_, ?_⟩
  · intro h; simp [CloudProcessRunLauncher.launch_run, h]
  · intro origin h; simp [CloudProcessRunLauncher.launch_run, h]

/-- C8, witness: launching with an origin present spawns the built argument
list and writes `process/pid ↦ "42"`; without an origin it fails with the
check error and no effects. -/
theorem C8_launch_run_spawn_and_tag_witness :
    CloudProcessRunLauncher.launch_run envSeven
        { pipeline_run := runSeven, pipeline_code_origin := some "loc" } =
      (Except.ok (),
       [Effect.spawn ["loc", "r", "ref"],
        Effect.addRunTags "r" [(PID_TAG, "42")]]) ∧
    CloudProcessRunLauncher.launch_run envSeven
        { pipeline_run := runSeven, pipeline_code_origin := none } =
      (Except.error
        (LaunchError.checkError "pipeline_code_origin must not be None"), []) :=
  ⟨(C8_launch_run_spawn_and_tag envSeven
      { pipeline_run := runSeven, pipeline_code_origin := some "loc" }).2.2
      "loc" rfl,
   (C8_launch_run_spawn_and_tag envSeven
      { pipeline_run := runSeven, pipeline_code_origin := none }).2.1 rfl⟩

/-- C9: once the first phase succeeds, the status of the multipart file POST
is never inspected — the uploader returns without error even when that
status is a non-success one, and its whole result is invariant under any
change of that status. -/
theorem C9_file_post_failure_silent (env : UploadEnv) (C : Type) (m : String)
    (records : List (String × C × String)) (u : String)
    (flds : List (String × String))
    (h1 : env.isCloudAgent = true) (h2 : env.pyarrowAvailable = true)
    (h3 : 200 ≤ env.genUrlResponse.status_code)
    (h4 : env.genUrlResponse.status_code < 300)
    (h5 : env.genUrlResponse.data.url? = some u)
    (h6 : env.genUrlResponse.data.fields? = some flds)
    (_h7 : ¬(200 ≤ env.filePostStatus ∧ env.filePostStatus < 300)) :
    upload_cost_information C env m records =
      (Except.ok (),
       [Effect.genUrlPost env.genInsightsUrl, Effect.filePost u flds]) ∧
    (∀ s, upload_cost_information C { env with filePostStatus := s } m records =
      upload_cost_information C env m records) := by
  constructor
  · simp [upload_cost_information, get_post_request_params, raise_http_error,
      h1, h2, h3, h4, h5, h6]
  · intro s; rfl

/-- C9, witness: with a 500 status on the file POST, the uploader still
returns without error after both network effects. -/
theorem C9_file_post_failure_silent_witness :
    upload_cost_information Int uenvOk "credits" [("a", 1, "q")] =
      (Except.ok (),
       [Effect.genUrlPost "https://gen.example/url",
        Effect.filePost "https://bucket.example/signed"
          [("key", "cost.parquet")]]) :=
  (C9_file_post_failure_silent uenvOk Int "credits" [("a", 1, "q")]
    "https://bucket.example/signed" [("key", "cost.parquet")]
    rfl rfl (by decide) (by decide) rfl rfl (by decide)).1

/-- C10: for a run that exists, is not finished, and carries a `process/pid`
tag whose value is not a decimal integer string, both `can_terminate` and
`terminate` raise the value error from the integer conversion instead of
returning false (or any boolean at all). -/
theorem C10_bad_pid_tag_raises (env : LauncherEnv) (rid : String) (run : Run)
    (v : String)
    (h1 : env.get_run_by_id rid = some run) (h2 : run.is_finished = false)
    (h3 : lookupTag run.tags PID_TAG = some v) (h4 : pyInt? v = none) :
    CloudProcessRunLauncher.can_terminate env rid =
      Except.error (LaunchError.valueError v) ∧
    CloudProcessRunLauncher.terminate env rid =
      (Except.error (LaunchError.valueError v), []) ∧
    (∀ b, CloudProcessRunLauncher.can_terminate env rid ≠ Except.ok b) ∧
    (∀ b es, CloudProcessRunLauncher.terminate env rid ≠ (Except.ok b, es)) := by
  have hc : CloudProcessRunLauncher.can_terminate env rid =
      Except.error (LaunchError.valueError v) := by
    simp [CloudProcessRunLauncher.can_terminate, CloudProcessRunLauncher.get_pid,
      h1, h2, h3, h4]
  have ht : CloudProcessRunLauncher.terminate env rid =
      (Except.error (LaunchError.valueError v), []) := by
    simp [CloudProcessRunLauncher.terminate, CloudProcessRunLauncher.get_pid,
      h1, h2, h3, h4]
  refine ⟨hc, ht, ?_, ?_⟩ <;> simp [hc, ht]

/-- C10, witness: the tag value `"abc"` makes both operations raise the
value error. -/
theorem C10_bad_pid_tag_raises_witness :
    CloudProcessRunLauncher.can_terminate envBadTag "r" =
      Except.error (LaunchError.valueError "abc") ∧
    CloudProcessRunLauncher.terminate envBadTag "r" =
      (Except.error (LaunchError.valueError "abc"), []) :=
  ⟨(C10_bad_pid_tag_raises envBadTag "r" runBadTag "abc" rfl rfl rfl rfl).1,
   (C10_bad_pid_tag_raises envBadTag "r" runBadTag "abc" rfl rfl rfl rfl).2.1⟩

end DagsterCloud
